import Mathlib

/-!
Verification of the form validation and submission pipeline of the
Properties 4 Creations website (src/js/validation.js, src/js/main.js).

The JavaScript functions are shallowly embedded: strings are lists of
characters, DOM fields and forms are records, the asynchronous fetch is a
parameter describing its outcome, and the submit handlers are state
transformers.  Each definition cites the source function it embeds.
-/

namespace P4C

/-! ## Character classes used by the regexes and by trimming -/

/-- The JavaScript whitespace set: the class matched by the regex `\s` and
the set removed by the standard trim operation on strings (space, tab, line
terminators, NBSP, BOM and the Unicode space separators). -/
def isJsWs (c : Char) : Bool :=
  c == ' ' || c == '\t' || c == '\n' || c == '\r' ||
  decide (c.toNat = 0x0b) || decide (c.toNat = 0x0c) ||
  decide (c.toNat = 0xa0) || decide (c.toNat = 0x1680) ||
  (decide (0x2000 ≤ c.toNat) && decide (c.toNat ≤ 0x200a)) ||
  decide (c.toNat = 0x2028) || decide (c.toNat = 0x2029) ||
  decide (c.toNat = 0x202f) || decide (c.toNat = 0x205f) ||
  decide (c.toNat = 0x3000) || decide (c.toNat = 0xfeff)

/-- The class matched by the regex `\w`: ASCII letters, digits and underscore. -/
def isWordChar (c : Char) : Bool :=
  c.isAlpha || c.isDigit || c == '_'

/-! ## The trim operation (`String.prototype.trim`) -/

/-- Remove leading JavaScript whitespace. -/
def ltrim (l : List Char) : List Char :=
  l.dropWhile isJsWs

/-- Remove trailing JavaScript whitespace. -/
def rtrim (l : List Char) : List Char :=
  (l.reverse.dropWhile isJsWs).reverse

/-- `value.trim()` on a character list: leading and trailing whitespace
removed. -/
def jsTrim (l : List Char) : List Char :=
  rtrim (ltrim l)

/-- `value.trim()` at the string level. -/
def jsTrimStr (s : String) : String :=
  String.mk (jsTrim s.data)

/-! ## sanitizeInput (validation.js lines 228-238)

`input.replace(/[<>]/g, '').replace(/javascript:/gi, '')
      .replace(/on\w+=/gi, '').trim()` -/

/-- `replace(/[<>]/g, '')`: delete every angle bracket character. -/
def removeAngles (l : List Char) : List Char :=
  l.filter (fun c => !(c == '<' || c == '>'))

/-- Whether the list begins with the case-insensitive literal
`javascript:` (the anchor of `/javascript:/gi` at the current scan
position). -/
def startsWithJs (l : List Char) : Bool :=
  match l with
  | c0 :: c1 :: c2 :: c3 :: c4 :: c5 :: c6 :: c7 :: c8 :: c9 :: c10 :: _ =>
    c0.toLower == 'j' && c1.toLower == 'a' && c2.toLower == 'v' && c3.toLower == 'a' &&
    c4.toLower == 's' && c5.toLower == 'c' && c6.toLower == 'r' && c7.toLower == 'i' &&
    c8.toLower == 'p' && c9.toLower == 't' && c10 == ':'
  | _ => false

/-- `replace(/javascript:/gi, '')` with explicit fuel (the fuel is only a
structural-recursion device; it is always instantiated with the length of
the list, which bounds the number of scan steps).  At each position the
scanner either deletes a leftmost match (11 characters) and resumes after
it, or keeps the character and moves one position right. -/
def removeJsAux : Nat → List Char → List Char
  | _, [] => []
  | 0, c :: rest => c :: rest
  | fuel + 1, c :: rest =>
    if startsWithJs (c :: rest) then removeJsAux fuel (rest.drop 10)
    else c :: removeJsAux fuel rest

/-- `replace(/javascript:/gi, '')`: delete every non-overlapping leftmost
occurrence of the case-insensitive substring `javascript:`. -/
def removeJs (l : List Char) : List Char :=
  removeJsAux l.length l

/-- Length of a leftmost match of `/on\w+=/i` anchored at the head of the
list, if any.  The match is `o`/`O`, `n`/`N`, a maximal nonempty run of
word characters, then `=` (greedy `\w+` can only accept the maximal run,
since shortening it puts a word character where `=` is required). -/
def handlerMatchLen (l : List Char) : Option Nat :=
  match l with
  | c0 :: c1 :: rest =>
    let r := (rest.takeWhile isWordChar).length
    if (c0 == 'o' || c0 == 'O') && (c1 == 'n' || c1 == 'N') &&
        decide (1 ≤ r) && (rest.getD r ' ' == '=') then
      some (r + 3)
    else none
  | _ => none

/-- `replace(/on\w+=/gi, '')` with fuel (always called with fuel equal to
the length of the list). -/
def removeHandlersAux : Nat → List Char → List Char
  | _, [] => []
  | 0, c :: rest => c :: rest
  | fuel + 1, c :: rest =>
    match handlerMatchLen (c :: rest) with
    | some n => removeHandlersAux fuel ((c :: rest).drop n)
    | none => c :: removeHandlersAux fuel rest

/-- `replace(/on\w+=/gi, '')`: delete every non-overlapping leftmost match
of the inline-event-handler pattern. -/
def removeHandlers (l : List Char) : List Char :=
  removeHandlersAux l.length l

/-- `sanitizeInput` on the character list of a string: remove angle
brackets, then the `javascript:` protocol, then inline event handlers,
then trim. -/
def sanitizeChars (l : List Char) : List Char :=
  jsTrim (removeHandlers (removeJs (removeAngles l)))

/-- `sanitizeInput` (validation.js lines 228-238) applied to a string
argument.  The `typeof input !== 'string'` guard is modelled separately by
`sanitizeInputVal`. -/
def sanitizeInput (s : String) : String :=
  String.mk (sanitizeChars s.data)

/-- `sanitizeInput` on an arbitrary argument: a non-string argument
(modelled as `none`) returns the empty string. -/
def sanitizeInputVal (v : Option String) : String :=
  match v with
  | none => ""
  | some s => sanitizeInput s

/-! ## isValidEmail (validation.js lines 14-17) -/

/-- The character class `[^\s@]`. -/
def isEmailChar (c : Char) : Bool :=
  !(isJsWs c) && c != '@'

/-- `/^[^\s@]+@[^\s@]+\.[^\s@]+$/.test l`: the string decomposes as a
nonempty `[^\s@]` block, a literal `@`, a nonempty `[^\s@]` block, a
literal `.`, and a final nonempty `[^\s@]` block.  The search ranges over
the index `i` of the `@` and the index `j` of the `.`. -/
def emailRegexTest (l : List Char) : Bool :=
  (List.range l.length).any fun i =>
    (List.range l.length).any fun j =>
      l.getD i ' ' == '@' && l.getD j ' ' == '.' &&
      decide (1 ≤ i) && decide (i + 1 < j) && decide (j + 1 < l.length) &&
      (l.take i).all isEmailChar &&
      ((l.drop (i + 1)).take (j - i - 1)).all isEmailChar &&
      (l.drop (j + 1)).all isEmailChar

/-- `RegExp.prototype.test` converts its argument to a string first; a
null argument is converted to the four-character string `null`. -/
def jsToString (v : Option String) : String :=
  match v with
  | none => "null"
  | some s => s

/-- `isValidEmail` (validation.js lines 14-17): test the email regex
against the (string-converted) argument. -/
def isValidEmail (email : Option String) : Bool :=
  emailRegexTest (jsToString email).data

/-! ## isValidPhone (validation.js lines 24-28) -/

/-- The character class `[\s\-\(\)\.]` stripped by `isValidPhone`. -/
def isPhoneStripped (c : Char) : Bool :=
  isJsWs c || c == '-' || c == '(' || c == ')' || c == '.'

/-- `phone.replace(/[\s\-\(\)\.]/g, '')`. -/
def cleanPhone (l : List Char) : List Char :=
  l.filter (fun c => !(isPhoneStripped c))

/-- `/^[\+]?[1-9][\d]{0,15}$/` after the optional leading `+`: a first
digit in `1`-`9` followed by at most 15 digits. -/
def phoneCore (l : List Char) : Bool :=
  match l with
  | [] => false
  | c :: rest =>
    decide ('1' ≤ c) && decide (c ≤ '9') &&
    decide (rest.length ≤ 15) && rest.all Char.isDigit

/-- `/^[\+]?[1-9][\d]{0,15}$/.test l`. -/
def phoneRegexTest (l : List Char) : Bool :=
  match l with
  | '+' :: rest => phoneCore rest
  | _ => phoneCore l

/-- `isValidPhone` on a string argument: strip formatting characters, then
require the regex to match and the stripped length to be at least 10. -/
def isValidPhoneStr (s : String) : Bool :=
  let clean := cleanPhone s.data
  phoneRegexTest clean && decide (10 ≤ clean.length)

/-- `isValidPhone` (validation.js lines 24-28) on an arbitrary argument.
A null argument makes `phone.replace(...)` raise a TypeError before any
check runs, modelled as `Except.error ()`. -/
def isValidPhone (phone : Option String) : Except Unit Bool :=
  match phone with
  | none => Except.error ()
  | some s => Except.ok (isValidPhoneStr s)

/-! ## Fields and validateField (validation.js lines 36-78) -/

/-- The `type` discriminator of a form control as read by `validateField`
(`select` and `textarea` controls fall under `other`). -/
inductive FieldType where
  | text
  | email
  | tel
  | checkbox
  | other
deriving DecidableEq

/-- A form control together with the constraint attributes `validateField`
reads and its visible error state.  `minlength` is the parsed value of the
`minlength` attribute; `errorShown` is `some msg` when a `.field-error`
message is attached and `aria-invalid` is set, `none` when both are
cleared. -/
structure Field where
  value : String
  required : Bool
  minlength : Option Nat
  ftype : FieldType
  checked : Bool
  errorShown : Option String
deriving DecidableEq

/-- The rule cascade of `validateField` (validation.js lines 37-69):
the pair `(isValid, errorMessage)` after the five `if` statements.  Each
step mirrors one `if`, including the `isValid &&` guards and the missing
non-empty guard on the minlength rule. -/
def validateFieldCheck (f : Field) : Bool × String :=
  let value := jsTrimStr f.value
  let s1 : Bool × String :=
    if f.required && (value == "") then (false, "This field is required") else (true, "")
  let s2 : Bool × String :=
    match f.minlength with
    | some n =>
      if s1.1 && decide (value.length < n) then
        (false, "Minimum " ++ toString n ++ " characters required")
      else s1
    | none => s1
  let s3 : Bool × String :=
    if s2.1 && (f.ftype == FieldType.email) && (value != "") && !(isValidEmail (some value)) then
      (false, "Please enter a valid email address")
    else s2
  let s4 : Bool × String :=
    if s3.1 && (f.ftype == FieldType.tel) && (value != "") && !(isValidPhoneStr value) then
      (false, "Please enter a valid phone number")
    else s3
  if (f.ftype == FieldType.checkbox) && f.required && !f.checked then
    (false, "You must agree to this")
  else s4

/-- `validateField` (validation.js lines 36-78): compute validity, then
either attach the error message (`showFieldError`) when invalid and
`showErrorMsg` is set, or clear any error (`clearFieldError`). -/
def validateField (f : Field) (showErrorMsg : Bool) : Bool × Field :=
  let r := validateFieldCheck f
  if !r.1 && showErrorMsg then (r.1, { f with errorShown := some r.2 })
  else (r.1, { f with errorShown := none })

/-! ## Forms and validateForm (validation.js lines 87-108) -/

/-- A node in a form's control list.  `throwing required` models a
malformed control on which `validateField` raises an exception (the
situation the `try`/`catch` of `validateForm` guards against); the flag
records whether the node carries the `required` attribute and is therefore
selected by `querySelectorAll('input[required], ...')`. -/
inductive FieldNode where
  | ok (f : Field)
  | throwing (required : Bool)
deriving DecidableEq

/-- The `required` attribute of a node. -/
def nodeRequired : FieldNode → Bool
  | FieldNode.ok f => f.required
  | FieldNode.throwing r => r

/-- The submit button: its displayed label, `disabled` flag and whether
the `btn-loading` class is present. -/
structure ButtonState where
  label : String
  disabled : Bool
  loadingClass : Bool
deriving DecidableEq

/-- A form-scoped banner (`showSuccess` / `showError` output): its text,
whether it is an error banner, and its auto-hide delay in milliseconds. -/
structure Banner where
  text : String
  isError : Bool
  autoHideMs : Nat
deriving DecidableEq

/-- A form: its controls, its submit button (if any) and the banner area
next to it. -/
structure FormState where
  fields : List FieldNode
  button : Option ButtonState
  banner : Option Banner
deriving DecidableEq

/-- The `for (const input of inputs)` loop of `validateForm` over the
`required`-attributed controls: validate each in order, conjoining
validity.  Reaching a throwing node raises; the `catch` turns this into an
overall `false`, with the controls after the throwing one left untouched
(their previous error displays persist). -/
def runFields (showErrors : Bool) : List FieldNode → Bool × List FieldNode
  | [] => (true, [])
  | FieldNode.throwing r :: rest =>
    if r then (false, FieldNode.throwing r :: rest)
    else
      let p := runFields showErrors rest
      (p.1, FieldNode.throwing r :: p.2)
  | FieldNode.ok f :: rest =>
    if f.required then
      let r1 := validateField f showErrors
      let p := runFields showErrors rest
      (r1.1 && p.1, FieldNode.ok r1.2 :: p.2)
    else
      let p := runFields showErrors rest
      (p.1, FieldNode.ok f :: p.2)

/-- `validateForm` on an actual form element. -/
def validateFormOn (fm : FormState) (showErrors : Bool) : Bool × FormState :=
  let p := runFields showErrors fm.fields
  (p.1, { fm with fields := p.2 })

/-- `validateForm` (validation.js lines 87-108).  A missing or non-form
argument (modelled as `none`) is logged and returns `false` without
raising; otherwise the field loop runs under the `try`/`catch`. -/
def validateForm (form : Option FormState) (showErrors : Bool) : Bool × Option FormState :=
  match form with
  | none => (false, none)
  | some fm =>
    let p := validateFormOn fm showErrors
    (p.1, some p.2)

/-! ## Submit handlers (validation.js lines 244-312 and 318-386)

The only asynchronous step is `fetch`; its outcome is passed as a
parameter.  A handler returns the final form state together with the
payload of the network call it made (`none` when validation failed and no
call was made; the payload is the list of sanitized field values that the
`sanitizedData` loop appends). -/

/-- The body of a non-2xx response as seen by the `response.json()`
parsing in the handlers: a structured `errors` list, a single `error`
string, some other JSON value, or an unparseable body. -/
inductive ErrorBody where
  | errorsList (msgs : List String)
  | errorString (msg : String)
  | otherJson
  | unparseable
deriving DecidableEq

/-- The outcome of the `fetch` call: a 2xx response, a non-2xx response
with the given body, or a rejected promise (network error). -/
inductive FetchOutcome where
  | ok
  | fail (body : ErrorBody)
  | netError
deriving DecidableEq

/-- The error banner text chosen by the non-2xx branch (lines 288-299):
join structured messages, or show the single error string, or fall back to
the handler's generic message. -/
def serverErrorMessage (generic : String) (b : ErrorBody) : String :=
  match b with
  | ErrorBody.errorsList msgs => "Submission failed: " ++ String.intercalate ", " msgs
  | ErrorBody.errorString m => "Submission failed: " ++ m
  | ErrorBody.otherJson => generic
  | ErrorBody.unparseable => generic

/-- `form.reset()` on one control: values return to their defaults (empty
value, unchecked); error displays are not touched by a reset. -/
def resetField : FieldNode → FieldNode
  | FieldNode.ok f => FieldNode.ok { f with value := "", checked := false }
  | n => n

/-- A control after `form.reset()` holds no value and is unchecked. -/
def fieldEmptied : FieldNode → Bool
  | FieldNode.ok f => f.value == "" && f.checked == false
  | FieldNode.throwing _ => true

/-- The sanitized payload built by the `sanitizedData` loop: every
control's value passed through `sanitizeInput` (name/checkbox details of
`FormData` elided; throwing nodes contribute nothing). -/
def sanitizedPayload (fields : List FieldNode) : List String :=
  fields.filterMap fun n =>
    match n with
    | FieldNode.ok f => some (sanitizeInput f.value)
    | FieldNode.throwing _ => none

/-- The shared body of `handleApplicationSubmit` and `handleContactSubmit`
(the two differ only in the default button label, the success copy and the
generic failure copy).  Steps, in source order: validate with errors
shown; on failure show the general-error banner and stop with no network
call; otherwise capture the original label, switch the button to the
`Sending...` state, send the sanitized payload, branch on the outcome
(success banner + reset + re-disable, or error banner), and in the
`finally` block restore the original label, re-enable the button and drop
the loading class. -/
def handleSubmitCore (defaultLabel successMsg genericFail : String)
    (fm : FormState) (net : FetchOutcome) : FormState × Option (List String) :=
  let v := validateFormOn fm true
  if !v.1 then
    ({ v.2 with banner := some { text := "Please correct the errors before submitting.",
                                 isError := true, autoHideMs := 5000 } }, none)
  else
    let originalButtonText :=
      match v.2.button with
      | some b => b.label
      | none => defaultLabel
    let fm2 : FormState := { v.2 with button := v.2.button.map fun b =>
      { b with label := "Sending...", disabled := true, loadingClass := true } }
    let payload := sanitizedPayload fm2.fields
    let fm3 : FormState :=
      match net with
      | FetchOutcome.ok =>
        let r : FormState := { fm2 with
          fields := fm2.fields.map resetField,
          banner := some { text := successMsg, isError := false, autoHideMs := 5000 } }
        { r with button := r.button.map fun b => { b with disabled := true } }
      | FetchOutcome.fail body =>
        { fm2 with banner := some { text := serverErrorMessage genericFail body,
                                    isError := true, autoHideMs := 5000 } }
      | FetchOutcome.netError =>
        let msg := "Network error. Please check your internet connection and try again."
        { fm2 with banner := some { text := msg, isError := true, autoHideMs := 5000 } }
    ({ fm3 with button := fm3.button.map fun b =>
        { b with label := originalButtonText, disabled := false, loadingClass := false } },
     some payload)

/-- `handleApplicationSubmit` (validation.js lines 244-312). -/
def handleApplicationSubmit (fm : FormState) (net : FetchOutcome) :
    FormState × Option (List String) :=
  handleSubmitCore "Submit Application"
    "Application Submitted Successfully! Thank you! We will contact you within 24 hours."
    "There was an issue submitting your application. Please try again."
    fm net

/-- `handleContactSubmit` (validation.js lines 318-386). -/
def handleContactSubmit (fm : FormState) (net : FetchOutcome) :
    FormState × Option (List String) :=
  handleSubmitCore "Send Message"
    "Message Sent Successfully! Thank you! We will respond within 24 hours."
    "There was an issue sending your message. Please try again."
    fm net

/-! ## Live wiring (validation.js lines 392-412, main.js lines 263-288) -/

/-- `clearFieldError` applied to the control at index `i` (the field whose
`input` event fired). -/
def clearErrorAt : List FieldNode → Nat → List FieldNode
  | [], _ => []
  | n :: rest, 0 =>
    (match n with
     | FieldNode.ok f => FieldNode.ok { f with errorShown := none }
     | m => m) :: rest
  | n :: rest, i + 1 => n :: clearErrorAt rest i

/-- The `input`-event listener installed by `addFormValidation`
(validation.js lines 403-410): clear the changed field's own error, then,
if the form has a submit button, run a silent validation pass over the
whole form and set the button's `disabled` flag to the negation of the
result. -/
def addFormValidationOnInput (fm : FormState) (i : Nat) : FormState :=
  let fm1 := { fm with fields := clearErrorAt fm.fields i }
  match fm1.button with
  | none => fm1
  | some b =>
    let p := validateFormOn fm1 false
    { p.2 with button := some { b with disabled := !p.1 } }

/-- The page-load initialization of `initializeForms` (main.js lines
272-277): the submit button of a wired form is disabled. -/
def initializeFormsDisableOnLoad (fm : FormState) : FormState :=
  { fm with button := fm.button.map fun b => { b with disabled := true } }

/-! ## Concrete forms used as witnesses -/

/-- A valid one-field application form: a filled required text field and
an enabled submit button. -/
def exValidForm : FormState :=
  { fields := [FieldNode.ok
      { value := "hello", required := true, minlength := none,
        ftype := FieldType.text, checked := false, errorShown := none }],
    button := some { label := "Submit Application", disabled := false, loadingClass := false },
    banner := none }

/-- An invalid one-field form: an empty required text field. -/
def exInvalidForm : FormState :=
  { fields := [FieldNode.ok
      { value := "", required := true, minlength := none,
        ftype := FieldType.text, checked := false, errorShown := none }],
    button := some { label := "Send Message", disabled := true, loadingClass := false },
    banner := none }

/-- A form containing a malformed control on which `validateField` would
raise. -/
def exThrowingForm : FormState :=
  { fields := [FieldNode.ok
      { value := "hi", required := true, minlength := none,
        ftype := FieldType.text, checked := false, errorShown := none },
      FieldNode.throwing true],
    button := none,
    banner := none }

end P4C

namespace P4C

/-! ## Lemmas about the sanitizer scanners -/

/-- Every character produced by the `javascript:` scanner comes from its
input. -/
theorem mem_removeJsAux : ∀ (fuel : Nat) (l : List Char) (c : Char),
    c ∈ removeJsAux fuel l → c ∈ l := by
  intro fuel
  induction fuel with
  | zero =>
    intro l c h
    cases l with
    | nil => simp [removeJsAux] at h
    | cons a t => exact h
  | succ k ih =>
    intro l c h
    cases l with
    | nil => simp [removeJsAux] at h
    | cons a t =>
      cases hs : startsWithJs (a :: t) with
      | true =>
        rw [removeJsAux, if_pos hs] at h
        exact List.mem_cons_of_mem a (List.drop_subset 10 t (ih (t.drop 10) c h))
      | false =>
        rw [removeJsAux, if_neg (by simp [hs])] at h
        rcases List.mem_cons.mp h with h | h
        · exact h ▸ List.mem_cons_self a t
        · exact List.mem_cons_of_mem a (ih t c h)

/-- Every character produced by `removeJs` comes from its input. -/
theorem mem_removeJs (l : List Char) (c : Char) (h : c ∈ removeJs l) : c ∈ l :=
  mem_removeJsAux l.length l c h

/-- Every character produced by the event-handler scanner comes from its
input. -/
theorem mem_removeHandlersAux : ∀ (fuel : Nat) (l : List Char) (c : Char),
    c ∈ removeHandlersAux fuel l → c ∈ l := by
  intro fuel
  induction fuel with
  | zero =>
    intro l c h
    cases l with
    | nil => simp [removeHandlersAux] at h
    | cons a t => exact h
  | succ k ih =>
    intro l c h
    cases l with
    | nil => simp [removeHandlersAux] at h
    | cons a t =>
      cases hm : handlerMatchLen (a :: t) with
      | some n =>
        rw [removeHandlersAux, hm] at h
        exact List.drop_subset n (a :: t) (ih ((a :: t).drop n) c h)
      | none =>
        rw [removeHandlersAux, hm] at h
        rcases List.mem_cons.mp h with h | h
        · exact h ▸ List.mem_cons_self a t
        · exact List.mem_cons_of_mem a (ih t c h)

/-- Every character produced by `removeHandlers` comes from its input. -/
theorem mem_removeHandlers (l : List Char) (c : Char) (h : c ∈ removeHandlers l) : c ∈ l :=
  mem_removeHandlersAux l.length l c h

/-- Every character surviving `rtrim` comes from its input. -/
theorem mem_rtrim (l : List Char) (c : Char) (h : c ∈ rtrim l) : c ∈ l := by
  unfold rtrim at h
  rw [List.mem_reverse] at h
  exact List.mem_reverse.mp ((List.dropWhile_sublist isJsWs).subset h)

/-- Every character surviving `jsTrim` comes from its input. -/
theorem mem_jsTrim (l : List Char) (c : Char) (h : c ∈ jsTrim l) : c ∈ l :=
  (List.dropWhile_sublist isJsWs).subset (mem_rtrim (ltrim l) c h)

/-- Characters of `removeAngles l` are never angle brackets. -/
theorem mem_removeAngles (l : List Char) (c : Char) (h : c ∈ removeAngles l) :
    c ≠ '<' ∧ c ≠ '>' := by
  unfold removeAngles at h
  have := (List.mem_filter.mp h).2
  simpa using this

/-- No angle bracket survives sanitization. -/
theorem sanitizeChars_no_angle (l : List Char) (c : Char) (h : c ∈ sanitizeChars l) :
    c ≠ '<' ∧ c ≠ '>' := by
  unfold sanitizeChars at h
  exact mem_removeAngles l c
    (mem_removeJs _ c (mem_removeHandlers _ c (mem_jsTrim _ c h)))

/-! ## Lemmas about trimming -/

/-- Dropping a satisfied prefix twice is the same as dropping it once. -/
theorem dropWhile_dropWhile (p : Char → Bool) (l : List Char) :
    (l.dropWhile p).dropWhile p = l.dropWhile p := by
  induction l with
  | nil => simp
  | cons a t ih =>
    cases hp : p a with
    | true => simpa [List.dropWhile, hp] using ih
    | false => simp [List.dropWhile, hp]

/-- A prefix of a list whose head fails `p` still has a head failing `p`. -/
theorem dropWhile_take_of_fix (p : Char → Bool) (k : Nat) (m : List Char)
    (hm : m.dropWhile p = m) : (m.take k).dropWhile p = m.take k := by
  cases m with
  | nil => simp
  | cons a t =>
    have ha : p a = false := by
      cases hp : p a with
      | false => rfl
      | true =>
        exfalso
        rw [List.dropWhile, hp] at hm
        have hlen := congrArg List.length hm
        have hle := (List.dropWhile_sublist (l := t) p).length_le
        simp at hlen
        omega
    cases k with
    | zero => simp
    | succ k' => simp [List.dropWhile, ha]

/-- `ltrim` fixes `rtrim m` whenever it fixes `m`. -/
theorem ltrim_rtrim_of_fix (m : List Char) (hm : ltrim m = m) :
    ltrim (rtrim m) = rtrim m := by
  have hdecomp : rtrim m ++ (m.reverse.takeWhile isJsWs).reverse = m := by
    unfold rtrim
    rw [← List.reverse_append, List.takeWhile_append_dropWhile, List.reverse_reverse]
  have htake := List.take_left (rtrim m) ((m.reverse.takeWhile isJsWs).reverse)
  rw [hdecomp] at htake
  rw [← htake]
  exact dropWhile_take_of_fix isJsWs _ m hm

/-- `rtrim` is idempotent. -/
theorem rtrim_rtrim (l : List Char) : rtrim (rtrim l) = rtrim l := by
  unfold rtrim
  rw [List.reverse_reverse, dropWhile_dropWhile]

/-- `jsTrim` is idempotent. -/
theorem jsTrim_jsTrim (l : List Char) : jsTrim (jsTrim l) = jsTrim l := by
  unfold jsTrim
  rw [ltrim_rtrim_of_fix (ltrim l) (dropWhile_dropWhile isJsWs l), rtrim_rtrim]

end P4C

namespace P4C

/-- `removeAngles` fixes any list without angle brackets. -/
theorem removeAngles_eq_self (l : List Char)
    (h : ∀ c ∈ l, c ≠ '<' ∧ c ≠ '>') : removeAngles l = l := by
  unfold removeAngles
  rw [List.filter_eq_self]
  intro a ha
  have := h a ha
  simp [this.1, this.2]

/-- A second sanitization pass only re-trims, provided the first pass left
no fresh `javascript:` or event-handler match behind. -/
theorem sanitizeChars_stable (l : List Char)
    (hj : removeJs (sanitizeChars l) = sanitizeChars l)
    (hh : removeHandlers (sanitizeChars l) = sanitizeChars l) :
    sanitizeChars (sanitizeChars l) = sanitizeChars l := by
  have hang : removeAngles (sanitizeChars l) = sanitizeChars l :=
    removeAngles_eq_self _ (sanitizeChars_no_angle l)
  calc sanitizeChars (sanitizeChars l)
      = jsTrim (removeHandlers (removeJs (removeAngles (sanitizeChars l)))) := rfl
    _ = jsTrim (sanitizeChars l) := by rw [hang, hj, hh]
    _ = sanitizeChars l := jsTrim_jsTrim _

/-! ## Lemmas about form validation and the handlers -/

/-- Reaching a required malformed control makes the whole pass invalid
(the raised exception is caught and turned into `false`). -/
theorem runFields_false_of_throwing (showErrors : Bool) :
    ∀ l : List FieldNode, FieldNode.throwing true ∈ l →
      (runFields showErrors l).1 = false := by
  intro l
  induction l with
  | nil => intro h; simp at h
  | cons n rest ih =>
    intro h
    cases n with
    | throwing r =>
      cases r with
      | true => simp [runFields]
      | false =>
        have hmem : FieldNode.throwing true ∈ rest := by
          rcases List.mem_cons.mp h with h | h
          · simp at h
          · exact h
        simp [runFields, ih hmem]
    | ok f =>
      have hmem : FieldNode.throwing true ∈ rest := by
        rcases List.mem_cons.mp h with h | h
        · simp at h
        · exact h
      cases hr : f.required with
      | true => simp [runFields, hr, ih hmem]
      | false => simp [runFields, hr, ih hmem]

/-- `validateForm` never touches the submit button. -/
theorem validateFormOn_button (fm : FormState) (showErrors : Bool) :
    (validateFormOn fm showErrors).2.button = fm.button := rfl

/-- `validateForm` never touches the banner area. -/
theorem validateFormOn_banner (fm : FormState) (showErrors : Bool) :
    (validateFormOn fm showErrors).2.banner = fm.banner := rfl

/-- `resetField` empties every control. -/
theorem fieldEmptied_resetField (n : FieldNode) : fieldEmptied (resetField n) = true := by
  cases n with
  | ok f => rfl
  | throwing r => rfl

/-- After mapping `resetField`, every control is empty. -/
theorem all_fieldEmptied_map_resetField (l : List FieldNode) :
    (l.map resetField).all fieldEmptied = true := by
  rw [List.all_map]
  exact List.all_eq_true.mpr fun n _ => fieldEmptied_resetField n

end P4C

namespace P4C

/-- The shared `finally` behavior of both submit handlers: once a network
call was attempted, the submit button ends re-enabled, with its original
label and without the loading class. -/
theorem handleSubmitCore_button_restored (dl sm gf : String) (fm : FormState)
    (net : FetchOutcome) (b : ButtonState) (hb : fm.button = some b)
    (hsent : (handleSubmitCore dl sm gf fm net).2.isSome = true) :
    (handleSubmitCore dl sm gf fm net).1.button
      = some { label := b.label, disabled := false, loadingClass := false } := by
  cases hv : (validateFormOn fm true).1 with
  | false =>
    exfalso
    simp [handleSubmitCore, hv] at hsent
  | true =>
    have hb2 : (validateFormOn fm true).2.button = some b := by
      rw [validateFormOn_button, hb]
    cases net <;> simp [handleSubmitCore, hv, hb2]

/-- Claim C1: the spec (Scenario E) states that sanitizing
`"<script>alert(1)</script>Hello"` yields `"Hello"`.  The code only
deletes the bracket characters themselves, so the tag names survive and
the result is `"scriptalert(1)/scriptHello"` — the claimed output is not
produced. -/
theorem C1_sanitize_script_literal :
    sanitizeInput "<script>alert(1)</script>Hello" = "scriptalert(1)/scriptHello" ∧
    sanitizeInput "<script>alert(1)</script>Hello" ≠ "Hello" := by
  constructor
  · decide
  · decide

/-- Claim C2 (counterexample): `sanitizeInput` is not idempotent.
Deleting the inner occurrence of `javascript:` from
`"jjavascript:avascript:"` splices the surrounding text into a fresh
`javascript:`, which only a second pass removes. -/
theorem C2_counterexample :
    sanitizeInput (sanitizeInput "jjavascript:avascript:")
      ≠ sanitizeInput "jjavascript:avascript:" := by
  decide

/-- Claim C2 (amended): `sanitizeInput` is idempotent on every string
whose sanitized form is free of further `javascript:` occurrences and
inline-event-handler matches; in that case the second pass only re-trims,
and trimming is idempotent. -/
theorem C2_sanitize_idempotent_on_stable (s : String)
    (hj : removeJs (sanitizeInput s).data = (sanitizeInput s).data)
    (hh : removeHandlers (sanitizeInput s).data = (sanitizeInput s).data) :
    sanitizeInput (sanitizeInput s) = sanitizeInput s := by
  have h := sanitizeChars_stable s.data hj hh
  exact congrArg String.mk h

/-- Witness for the amended claim C2 at the concrete string `"Hello"`. -/
theorem C2_sanitize_idempotent_on_stable_witness :
    sanitizeInput (sanitizeInput "Hello") = sanitizeInput "Hello" :=
  C2_sanitize_idempotent_on_stable "Hello" (by decide) (by decide)

/-- Claim C5: the spec states that an optional field with a `minlength`
constraint and an empty value passes validation.  The code's minlength
check has no non-empty guard (despite its own comment), so such a field
fails with the minimum-length message. -/
theorem C5_minlength_fires_on_empty_optional :
    validateField
      { value := "", required := false, minlength := some 5,
        ftype := FieldType.text, checked := false, errorShown := none } true
    = (false,
       { value := "", required := false, minlength := some 5,
         ftype := FieldType.text, checked := false,
         errorShown := some "Minimum 5 characters required" }) := by
  decide

/-- Claim C9 (counterexample): a null argument to `isValidPhone` reaches
`phone.replace(...)` and raises a TypeError instead of returning false. -/
theorem C9_counterexample : isValidPhone none = Except.error () := rfl

/-- Claim C9 (amended): empty or null input to `isValidEmail` and empty
input to `isValidPhone` return false without raising; null input to
`isValidPhone` raises; and a whitespace-only phone value fails both the
regex check and the length-at-least-10 check. -/
theorem C9_email_phone_edge_cases :
    isValidEmail none = false ∧ isValidEmail (some "") = false ∧
    isValidPhoneStr "" = false ∧ isValidPhone none = Except.error () ∧
    (∀ l : List Char, l.all isJsWs = true →
      phoneRegexTest (cleanPhone l) = false ∧ (cleanPhone l).length < 10) := by
  refine ⟨by decide, by decide, by decide, rfl, fun l h => ?_⟩
  have hnil : cleanPhone l = [] := by
    unfold cleanPhone
    rw [List.filter_eq_nil_iff]
    intro a ha
    have hws := List.all_eq_true.mp h a ha
    simp [isPhoneStripped, hws]
  rw [hnil]
  exact ⟨rfl, by decide⟩

/-- Witness for the amended claim C9 at the whitespace-only phone value
`"   "`. -/
theorem C9_email_phone_edge_cases_witness :
    phoneRegexTest (cleanPhone "   ".data) = false ∧
    (cleanPhone "   ".data).length < 10 :=
  C9_email_phone_edge_cases.2.2.2.2 "   ".data (by decide)

/-- Claim C10: the sanitizer's output never contains an angle bracket
(the later denylist removals only delete characters) and carries no
leading or trailing whitespace (re-trimming it is a no-op, since the trim
is applied last). -/
theorem C10_sanitize_output_clean (s : String) :
    (∀ c ∈ (sanitizeInput s).data, c ≠ '<' ∧ c ≠ '>') ∧
    jsTrim (sanitizeInput s).data = (sanitizeInput s).data := by
  constructor
  · exact fun c hc => sanitizeChars_no_angle s.data c hc
  · exact jsTrim_jsTrim (removeHandlers (removeJs (removeAngles s.data)))

/-- Witness for claim C10 at the concrete string `"  a  "`. -/
theorem C10_sanitize_output_clean_witness :
    jsTrim (sanitizeInput "  a  ").data = (sanitizeInput "  a  ").data :=
  (C10_sanitize_output_clean "  a  ").2

end P4C

namespace P4C

/-- Claim C3 (counterexample): on a fully valid form and a success
response, the handler's `finally` block re-enables the submit control
after the success branch disabled it, so the handler finishes with the
control enabled — not disabled as claimed. -/
theorem C3_counterexample :
    (validateFormOn exValidForm true).1 = true ∧
    (handleApplicationSubmit exValidForm FetchOutcome.ok).2.isSome = true ∧
    (handleApplicationSubmit exValidForm FetchOutcome.ok).1.button.map
        ButtonState.disabled = some false := by
  refine ⟨by decide, by decide, by decide⟩

/-- Claim C3 (amended): for every valid form with a submit control, a
success response shows the success banner (auto-hiding after 5000 ms),
resets all field values, and finishes with the submit control re-enabled
under its original label (the `finally` block overrides the success
branch's re-disabling). -/
theorem C3_success_behavior (fm : FormState) (b : ButtonState)
    (hb : fm.button = some b) (hv : (validateFormOn fm true).1 = true) :
    ((handleApplicationSubmit fm FetchOutcome.ok).1.banner
        = some { text := "Application Submitted Successfully! Thank you! We will contact you within 24 hours.",
                 isError := false, autoHideMs := 5000 }) ∧
    ((handleApplicationSubmit fm FetchOutcome.ok).1.fields.all fieldEmptied = true) ∧
    ((handleApplicationSubmit fm FetchOutcome.ok).1.button
        = some { label := b.label, disabled := false, loadingClass := false }) := by
  have hb2 : (validateFormOn fm true).2.button = some b := by
    rw [validateFormOn_button, hb]
  refine ⟨?_, ?_, ?_⟩ <;>
    simp [handleApplicationSubmit, handleSubmitCore, hv, hb2,
      fieldEmptied_resetField]

/-- Witness for the amended claim C3 at the concrete valid form. -/
theorem C3_success_behavior_witness :
    (handleApplicationSubmit exValidForm FetchOutcome.ok).1.fields.all
      fieldEmptied = true :=
  (C3_success_behavior exValidForm
    { label := "Submit Application", disabled := false, loadingClass := false }
    rfl (by decide)).2.1

/-- Claim C4: whenever a network call was attempted — success, failure
response or thrown transport error — both submit handlers finish with the
submit control re-enabled and carrying its original label; it is never
left in the `Sending...` state. -/
theorem C4_button_always_restored (fm : FormState) (net : FetchOutcome)
    (b : ButtonState) (hb : fm.button = some b) :
    ((handleApplicationSubmit fm net).2.isSome = true →
      (handleApplicationSubmit fm net).1.button
        = some { label := b.label, disabled := false, loadingClass := false }) ∧
    ((handleContactSubmit fm net).2.isSome = true →
      (handleContactSubmit fm net).1.button
        = some { label := b.label, disabled := false, loadingClass := false }) :=
  ⟨fun hs => handleSubmitCore_button_restored _ _ _ fm net b hb hs,
   fun hs => handleSubmitCore_button_restored _ _ _ fm net b hb hs⟩

/-- Witness for claim C4: the application handler on a thrown network
error restores the original label and re-enables the control. -/
theorem C4_button_always_restored_witness :
    (handleApplicationSubmit exValidForm FetchOutcome.netError).1.button
      = some { label := "Submit Application", disabled := false, loadingClass := false } :=
  (C4_button_always_restored exValidForm FetchOutcome.netError
    { label := "Submit Application", disabled := false, loadingClass := false }
    rfl).1 (by decide)

/-- Claim C6: when validation fails, both submit handlers show the
general-error banner and return without any network call. -/
theorem C6_invalid_blocks_network (fm : FormState) (net : FetchOutcome)
    (hv : (validateFormOn fm true).1 = false) :
    ((handleApplicationSubmit fm net).2 = none) ∧
    ((handleApplicationSubmit fm net).1.banner
        = some { text := "Please correct the errors before submitting.",
                 isError := true, autoHideMs := 5000 }) ∧
    ((handleContactSubmit fm net).2 = none) ∧
    ((handleContactSubmit fm net).1.banner
        = some { text := "Please correct the errors before submitting.",
                 isError := true, autoHideMs := 5000 }) := by
  refine ⟨?_, ?_, ?_, ?_⟩ <;>
    simp [handleApplicationSubmit, handleContactSubmit, handleSubmitCore, hv]

/-- Witness for claim C6 at the concrete invalid form. -/
theorem C6_invalid_blocks_network_witness :
    (handleApplicationSubmit exInvalidForm FetchOutcome.ok).2 = none :=
  (C6_invalid_blocks_network exInvalidForm FetchOutcome.ok (by decide)).1

/-- Claim C7: on page load a wired form's submit control is disabled, and
after an input event the control is enabled exactly when the silent
validation pass run by that event's handler (over the form with the
changed field's error cleared) returned valid. -/
theorem C7_button_enabled_iff_silent_valid (fm : FormState) (i : Nat)
    (b : ButtonState) (hb : fm.button = some b) :
    ((initializeFormsDisableOnLoad fm).button.map ButtonState.disabled = some true) ∧
    (((addFormValidationOnInput fm i).button.map ButtonState.disabled = some false) ↔
      (validateFormOn { fm with fields := clearErrorAt fm.fields i } false).1 = true) := by
  constructor
  · simp [initializeFormsDisableOnLoad, hb]
  · cases hp : (validateFormOn { fm with fields := clearErrorAt fm.fields i } false).1 with
    | true =>
      rw [hb] at hp
      simp [addFormValidationOnInput, hb, hp]
    | false =>
      rw [hb] at hp
      simp [addFormValidationOnInput, hb, hp]

/-- Witness for claim C7 at the concrete valid form and field index 0. -/
theorem C7_button_enabled_iff_silent_valid_witness :
    (initializeFormsDisableOnLoad exValidForm).button.map ButtonState.disabled
      = some true :=
  (C7_button_enabled_iff_silent_valid exValidForm 0
    { label := "Submit Application", disabled := false, loadingClass := false } rfl).1

/-- Claim C8: `validateForm` fails closed — a missing or non-form
argument returns `false` without raising, and a control on which the
field validator raises makes the caught pass return `false` instead of
propagating the exception. -/
theorem C8_validateForm_fails_closed (showErrors : Bool) (fm : FormState) :
    validateForm none showErrors = (false, none) ∧
    (FieldNode.throwing true ∈ fm.fields →
      (validateFormOn fm showErrors).1 = false) := by
  refine ⟨rfl, fun h => ?_⟩
  exact runFields_false_of_throwing showErrors fm.fields h

/-- Witness for claim C8 at the concrete form with a malformed control. -/
theorem C8_validateForm_fails_closed_witness :
    (validateFormOn exThrowingForm true).1 = false :=
  (C8_validateForm_fails_closed true exThrowingForm).2 (by decide)

end P4C
